import Mathlib

/-!
Verification of the freestanding runtime shim `src/svd2odin/runtime/stubs.c`.

The file defines two libc-adjacent stubs:

  void abort(void) { while(1); }
  void *__aeabi_read_tp(void) { return (void*)0; }

We give a shallow embedding: machine memory is a map from addresses to
values, each routine becomes a small-step transition system on explicit
configurations, and every step carries the list of observable events it
emits (calls to external functions, logging, signaling, ...).  The body of
`abort` is the empty statement inside `while(1)`, and the body of
`__aeabi_read_tp` is a single `return` of the constant null pointer, so the
translated step rules touch no memory and emit no events.  A small
syntactic model of the file's declarations supports the interface-level
claims.
-/

/-- Machine memory: a map from addresses to stored values. -/
def Mem : Type := Nat → Nat

/-- A concrete memory (all cells zero), used to instantiate universally
quantified statements at a concrete input. -/
def mem0 : Mem := fun _ => 0

/-- Observable events a step of a routine could emit.  The stub routines are
expected to emit none of these; the type enumerates what "observable side
effect" means for this component: calling an external function, emitting a
log message, signaling an error code, retrying, or dumping state. -/
inductive Event : Type where
  | call (fname : String)
  | log (msg : Nat)
  | signal (code : Nat)
  | retryEv
  | stateDump
  deriving DecidableEq

/-- Configurations of `abort`: about to execute the body (`entry`), at the
head of the `while(1)` loop (`loop`), or returned to the caller
(`returned`).  `while(1);` has no `break`, so `returned` exists only as the
target that a terminating execution would have to reach. -/
inductive AbortConfig : Type where
  | entry (m : Mem)
  | loop (m : Mem)
  | returned (m : Mem)

/-- The memory component of an `abort` configuration. -/
def AbortConfig.mem : AbortConfig → Mem
  | .entry m => m
  | .loop m => m
  | .returned m => m

/-- Labeled small-step relation for `abort`, translated from
`while(1);`: entering the function reaches the loop head, and since the
controlling expression is the constant `1` and the body is the empty
statement, the only step from the loop head re-evaluates the condition and
comes back to the loop head.  No rule produces `returned`, and no rule
emits an event. -/
inductive abortStepL : AbortConfig → List Event → AbortConfig → Prop where
  | toLoop (m : Mem) : abortStepL (.entry m) [] (.loop m)
  | loopIter (m : Mem) : abortStepL (.loop m) [] (.loop m)

/-- Unlabeled step relation for `abort`: a step with some event list. -/
def abortStep (c c' : AbortConfig) : Prop := ∃ es, abortStepL c es c'

/-- Configurations of `__aeabi_read_tp`: about to execute the body
(`entry`), returned with a value (`returned`), or having hit undefined
behavior (`err`).  `err` is the target a faulting execution (bad memory
access, division, ...) would reach; the body `return (void*)0;` contains no
such operation, so no rule produces it. -/
inductive TpConfig : Type where
  | entry (m : Mem)
  | returned (m : Mem) (val : Nat)
  | err

/-- Labeled small-step relation for `__aeabi_read_tp`, translated from
`return (void*)0;`: the single step evaluates the constant null pointer
(value `0`) and returns it, leaving memory untouched and emitting no
event. -/
inductive tpStepL : TpConfig → List Event → TpConfig → Prop where
  | ret (m : Mem) : tpStepL (.entry m) [] (.returned m 0)

/-- Unlabeled step relation for `__aeabi_read_tp`. -/
def tpStep (c c' : TpConfig) : Prop := ∃ es, tpStepL c es c'

/-- Functional embedding of `__aeabi_read_tp`: from a starting memory it
produces the final memory and the returned pointer value.  The body is
`return (void*)0;`, so the memory is passed through and the result is the
null value `0`. -/
def aeabi_read_tp (m : Mem) : Mem × Nat := (m, 0)

/-! ### Syntactic model of the file's declarations -/

/-- The C types appearing in the stub file's signatures. -/
inductive CType : Type where
  | void
  | voidPtr
  deriving DecidableEq

/-- A C function definition as it appears in the file: its name, parameter
types, return type, whether its halt loop (if any) carries a
`volatile`/no-optimize marker, and the names of the functions its body
calls. -/
structure CFunDef : Type where
  name : String
  params : List CType
  ret : CType
  loopVolatileMarker : Bool
  callees : List String
  deriving DecidableEq

/-- The definition of `abort` as written in `stubs.c`:
`void abort(void) { while(1); }` — no parameters, `void` return, a plain
`while(1)` loop with no `volatile` or other no-optimize marker, and no
calls in the body. -/
def abortDef : CFunDef :=
  { name := "abort"
    params := []
    ret := .void
    loopVolatileMarker := false
    callees := [] }

/-- The definition of `__aeabi_read_tp` as written in `stubs.c`:
`void *__aeabi_read_tp(void) { return (void*)0; }` — no parameters,
pointer return, no loop (hence no marker), and no calls in the body. -/
def readTpDef : CFunDef :=
  { name := "__aeabi_read_tp"
    params := []
    ret := .voidPtr
    loopVolatileMarker := false
    callees := [] }

/-- All symbols exported by `stubs.c`, in file order.  The file contains
exactly these two function definitions and nothing else (the trailing
comment notes that the interrupt primitives live in a separate assembly
module). -/
def stubsExports : List CFunDef := [abortDef, readTpDef]

/-! ### Helper lemmas shared between the claims -/

/-- Any configuration reachable from the entry of `abort` is either the
entry itself or the loop head; in particular it is never `returned`. -/
lemma abortReach_classify (m : Mem) (c : AbortConfig)
    (h : Relation.ReflTransGen abortStep (.entry m) c) :
    c = .entry m ∨ c = .loop m := by
  induction h with
  | refl => exact Or.inl rfl
  | tail _ hstep ih =>
    rcases hstep with ⟨es, hstep⟩
    rcases ih with h1 | h1 <;> subst h1 <;> cases hstep <;> exact Or.inr rfl

/-- Every step of `abort` preserves the memory. -/
lemma abortStep_mem_eq (c c' : AbortConfig) (h : abortStep c c') :
    c'.mem = c.mem := by
  rcases h with ⟨es, h⟩; cases h <;> rfl

/-- The memory component of a `__aeabi_read_tp` configuration (`err`
carries none). -/
def TpConfig.mem : TpConfig → Option Mem
  | .entry m => some m
  | .returned m _ => some m
  | .err => none

/-- Every step of `__aeabi_read_tp` preserves the memory. -/
lemma tpStep_mem_eq (c c' : TpConfig) (h : tpStep c c') :
    c'.mem = c.mem := by
  rcases h with ⟨es, h⟩; cases h; rfl

/-- The single step of `__aeabi_read_tp` fully determines the successor:
from `entry m` the only step returns `0` with memory `m` unchanged. -/
lemma tpStepL_inv (m : Mem) (es : List Event) (c' : TpConfig)
    (h : tpStepL (.entry m) es c') : es = [] ∧ c' = .returned m 0 := by
  cases h; exact ⟨rfl, rfl⟩

/-- No labeled step of `abort` emits any event. -/
lemma abortStepL_no_events (c : AbortConfig) (es : List Event)
    (c' : AbortConfig) (h : abortStepL c es c') : es = [] := by
  cases h <;> rfl

/-- No labeled step of `__aeabi_read_tp` emits any event. -/
lemma tpStepL_no_events (c : TpConfig) (es : List Event) (c' : TpConfig)
    (h : tpStepL c es c') : es = [] := by
  cases h; rfl

/-- Any configuration reachable from the entry of `__aeabi_read_tp` is
either the entry itself or the returned-null configuration; in particular
the undefined-behavior configuration `err` is never reached. -/
lemma tpReach_classify (m : Mem) (c : TpConfig)
    (h : Relation.ReflTransGen tpStep (.entry m) c) :
    c = .entry m ∨ c = .returned m 0 := by
  induction h with
  | refl => exact Or.inl rfl
  | tail _ hstep ih =>
    rcases hstep with ⟨es, hstep⟩
    rcases ih with h1 | h1 <;> subst h1 <;> cases hstep
    exact Or.inr rfl

/-! ### The claims -/

/-- Claim C1: `abort` never returns to its caller and never transfers
control anywhere else observable: every configuration reachable from its
entry is the entry or the `while(1)` loop head, and is never the
`returned` configuration (so no instruction after the call site is ever
reached). -/
theorem abort_never_returns_C1 (m : Mem) (c : AbortConfig)
    (h : Relation.ReflTransGen abortStep (.entry m) c) :
    (c = .entry m ∨ c = .loop m) ∧ ∀ m', c ≠ .returned m' := by
  have hc := abortReach_classify m c h
  refine ⟨hc, ?_⟩
  intro m' hret
  rcases hc with h1 | h1 <;> rw [h1] at hret <;> cases hret

/-- Witness for C1 at a concrete input: after one concrete step from the
entry, the configuration is the loop head and not a return. -/
theorem abort_never_returns_C1_witness :
    AbortConfig.loop mem0 ≠ AbortConfig.returned mem0 :=
  (abort_never_returns_C1 mem0 (AbortConfig.loop mem0)
    (Relation.ReflTransGen.single ⟨[], abortStepL.toLoop mem0⟩)).2 mem0

/-- Claim C2: from any state, `__aeabi_read_tp` returns the null value `0`;
two calls in sequence both return the identical null value; and the step
semantics agrees: the call steps to the returned-null configuration. -/
theorem read_tp_returns_null_C2 (m : Mem) :
    (aeabi_read_tp m).2 = 0 ∧
    (aeabi_read_tp (aeabi_read_tp m).1).2 = 0 ∧
    (aeabi_read_tp m).2 = (aeabi_read_tp (aeabi_read_tp m).1).2 ∧
    tpStep (.entry m) (.returned m 0) :=
  ⟨rfl, rfl, rfl, ⟨[], tpStepL.ret m⟩⟩

/-- Claim C3: neither routine has an observable side effect beyond its
stated behavior: `__aeabi_read_tp` leaves the state unchanged (both in the
functional and in the step embedding), and every step `abort` takes leaves
the state unchanged. -/
theorem no_side_effects_C3 :
    (∀ m : Mem, (aeabi_read_tp m).1 = m) ∧
    (∀ c c' : AbortConfig, abortStep c c' → c'.mem = c.mem) ∧
    (∀ c c' : TpConfig, tpStep c c' → c'.mem = c.mem) :=
  ⟨fun _ => rfl, abortStep_mem_eq, tpStep_mem_eq⟩

/-- Witness for C3 at a concrete input: the concrete entry-to-loop step of
`abort` preserves the concrete memory. -/
theorem no_side_effects_C3_witness :
    (AbortConfig.loop mem0).mem = (AbortConfig.entry mem0).mem :=
  no_side_effects_C3.2.1 (AbortConfig.entry mem0) (AbortConfig.loop mem0)
    ⟨[], abortStepL.toLoop mem0⟩

/-- Claim C4: `__aeabi_read_tp` is deterministic and stateless: runs from
any two prior states return the same value, and each routine's step
relation is deterministic (exactly one behavior from each configuration).
-/
theorem read_tp_stateless_C4 :
    (∀ m1 m2 : Mem, (aeabi_read_tp m1).2 = (aeabi_read_tp m2).2) ∧
    (∀ c c1 c2 : AbortConfig, abortStep c c1 → abortStep c c2 → c1 = c2) ∧
    (∀ c c1 c2 : TpConfig, tpStep c c1 → tpStep c c2 → c1 = c2) := by
  refine ⟨fun _ _ => rfl, ?_, ?_⟩
  · intro c c1 c2 h1 h2
    rcases h1 with ⟨es1, h1⟩
    rcases h2 with ⟨es2, h2⟩
    cases h1 <;> cases h2 <;> rfl
  · intro c c1 c2 h1 h2
    rcases h1 with ⟨es1, h1⟩
    rcases h2 with ⟨es2, h2⟩
    cases h1; cases h2; rfl

/-- Witness for C4 at a concrete input: the two possible successors of the
concrete entry configuration of `abort` coincide. -/
theorem read_tp_stateless_C4_witness :
    AbortConfig.loop mem0 = AbortConfig.loop mem0 :=
  read_tp_stateless_C4.2.1 (AbortConfig.entry mem0) (AbortConfig.loop mem0)
    (AbortConfig.loop mem0) ⟨[], abortStepL.toLoop mem0⟩
    ⟨[], abortStepL.toLoop mem0⟩

/-- Counterexample to claim C5 as stated: the halt loop of `abort` in
`stubs.c` is written `while(1);` and carries no `volatile`/no-optimize
marker. -/
theorem abort_loop_marker_C5_counterexample :
    ¬ (abortDef.loopVolatileMarker = true) := by decide

/-- Claim C5 (amended): the halt loop inside `abort` carries no
`volatile`/no-optimize marker; it is a plain unconditional `while(1)` loop,
and its non-termination holds in the semantics (the loop head always steps
back to itself). -/
theorem abort_loop_marker_C5 :
    abortDef.loopVolatileMarker = false ∧
    ∀ m : Mem, abortStep (.loop m) (.loop m) :=
  ⟨rfl, fun m => ⟨[], abortStepL.loopIter m⟩⟩

/-- Claim C6: `abort` is the terminal error sink: no step of it emits any
observable event (no retry, no logging, no signaling, no message, no code,
no state dump), and every reachable configuration stays at the entry or in
the infinite loop. -/
theorem abort_terminal_sink_C6 :
    (∀ (c : AbortConfig) (es : List Event) (c' : AbortConfig),
      abortStepL c es c' → es = []) ∧
    (∀ (m : Mem) (c : AbortConfig),
      Relation.ReflTransGen abortStep (.entry m) c →
        c = .entry m ∨ c = .loop m) :=
  ⟨abortStepL_no_events, abortReach_classify⟩

/-- Witness for C6 at a concrete input: after a concrete reachable
execution from the entry, the configuration is the entry or the loop head.
-/
theorem abort_terminal_sink_C6_witness :
    AbortConfig.loop mem0 = AbortConfig.entry mem0 ∨
    AbortConfig.loop mem0 = AbortConfig.loop mem0 :=
  abort_terminal_sink_C6.2 mem0 (AbortConfig.loop mem0)
    (Relation.ReflTransGen.single ⟨[], abortStepL.toLoop mem0⟩)

/-- Claim C7: the component exports exactly two symbols with the stated
signatures: `abort` with no parameters and `void` return, and
`__aeabi_read_tp` with no parameters and a pointer return whose value is
fixed at null. -/
theorem exports_C7 :
    stubsExports.length = 2 ∧
    stubsExports.map CFunDef.name = ["abort", "__aeabi_read_tp"] ∧
    abortDef.params = [] ∧ abortDef.ret = CType.void ∧
    readTpDef.params = [] ∧ readTpDef.ret = CType.voidPtr ∧
    ∀ m : Mem, (aeabi_read_tp m).2 = 0 :=
  ⟨rfl, rfl, rfl, rfl, rfl, rfl, fun _ => rfl⟩

/-- Claim C8: neither routine implements or calls the interrupt primitives
or any other external function: no step of either routine emits a call
event, and the syntactic callee lists of both definitions are empty. -/
theorem no_external_calls_C8 :
    (∀ (c : AbortConfig) (es : List Event) (c' : AbortConfig),
      abortStepL c es c' → ∀ f : String, Event.call f ∉ es) ∧
    (∀ (c : TpConfig) (es : List Event) (c' : TpConfig),
      tpStepL c es c' → ∀ f : String, Event.call f ∉ es) ∧
    abortDef.callees = [] ∧ readTpDef.callees = [] := by
  refine ⟨?_, ?_, rfl, rfl⟩
  · intro c es c' h f
    rw [abortStepL_no_events c es c' h]
    exact List.not_mem_nil _
  · intro c es c' h f
    rw [tpStepL_no_events c es c' h]
    exact List.not_mem_nil _

/-- Witness for C8 at a concrete input: the concrete entry-to-loop step of
`abort` emits no call to `disable_interrupts`. -/
theorem no_external_calls_C8_witness :
    Event.call "disable_interrupts" ∉ ([] : List Event) :=
  no_external_calls_C8.1 (AbortConfig.entry mem0) [] (AbortConfig.loop mem0)
    (abortStepL.toLoop mem0) "disable_interrupts"

/-- Claim C9 (implicit): `__aeabi_read_tp` is total and cannot fault: from
any state it returns in one step, that step is the only possible one, every
reachable configuration avoids the undefined-behavior configuration `err`,
and the functional embedding is total with no error branch. -/
theorem read_tp_total_C9 :
    (∀ m : Mem, tpStepL (.entry m) [] (.returned m 0)) ∧
    (∀ (m : Mem) (es : List Event) (c' : TpConfig),
      tpStepL (.entry m) es c' → es = [] ∧ c' = .returned m 0) ∧
    (∀ (m : Mem) (c : TpConfig),
      Relation.ReflTransGen tpStep (.entry m) c →
        c = .entry m ∨ c = .returned m 0) ∧
    (∀ m : Mem, aeabi_read_tp m = (m, 0)) :=
  ⟨fun m => tpStepL.ret m, tpStepL_inv, tpReach_classify, fun _ => rfl⟩

/-- Witness for C9 at a concrete input: the concrete one-step execution
from the entry reaches the returned-null configuration, never `err`. -/
theorem read_tp_total_C9_witness :
    TpConfig.returned mem0 0 = TpConfig.entry mem0 ∨
    TpConfig.returned mem0 0 = TpConfig.returned mem0 0 :=
  read_tp_total_C9.2.2.1 mem0 (TpConfig.returned mem0 0)
    (Relation.ReflTransGen.single ⟨[], tpStepL.ret mem0⟩)

/-- Claim C10 (implicit): the fragment touches no memory: every step of
either routine preserves the memory, and along any execution from an entry
configuration the memory equals its initial contents. -/
theorem memory_invariant_C10 :
    (∀ c c' : AbortConfig, abortStep c c' → c'.mem = c.mem) ∧
    (∀ c c' : TpConfig, tpStep c c' → c'.mem = c.mem) ∧
    (∀ (m : Mem) (c : AbortConfig),
      Relation.ReflTransGen abortStep (.entry m) c → c.mem = m) ∧
    (∀ (m : Mem) (c : TpConfig),
      Relation.ReflTransGen tpStep (.entry m) c → c.mem = some m) := by
  refine ⟨abortStep_mem_eq, tpStep_mem_eq, ?_, ?_⟩
  · intro m c h
    rcases abortReach_classify m c h with h1 | h1 <;> subst h1 <;> rfl
  · intro m c h
    rcases tpReach_classify m c h with h1 | h1 <;> subst h1 <;> rfl

/-- Witness for C10 at a concrete input: along the concrete execution of
`abort` from `mem0`, the memory is still `mem0` at the loop head. -/
theorem memory_invariant_C10_witness :
    (AbortConfig.loop mem0).mem = mem0 :=
  memory_invariant_C10.2.2.1 mem0 (AbortConfig.loop mem0)
    (Relation.ReflTransGen.single ⟨[], abortStepL.toLoop mem0⟩)
